import Mathlib

/-!
Verification of `check_mysql_health.py` (icinga2-checks) against its
natural-language specification.

The Python source is shallowly embedded: each method of `MySQLServer` that the
claims touch becomes a Lean definition with the same structure.  Python ints
are `Int`/`Nat`, Python floats are `ℚ` (the script only ever divides,
multiplies by 100 and rounds to two decimals, all exactly representable),
MySQL rows are explicit records, ad-hoc queries are oracle fields of type
`Except String _` (`.error` = the cursor raising an exception), and the
messages/perf-data strings are structured terms recording the format-string
arguments (string rendering is injective on them, so equality of terms is
equality of the printed bytes).
-/

namespace CheckMySQLHealth

/-! ### Python 2 value model for the fallback lag arithmetic

`SHOW GLOBAL VARIABLES` delivers its `Value` column as a string; the script
coerces such values with `float(...)` before arithmetic everywhere except in
`_diff_binlog_master_slave`'s fallback branch, so that branch manipulates a
Python `str`.  `PyVal` models just enough of Python 2's dynamic arithmetic to
evaluate that branch: `int * str` is sequence repetition, `str - int` raises
`TypeError` (modelled as `none`). -/

inductive PyVal where
  | int : Int → PyVal
  | str : String → PyVal
deriving DecidableEq, Repr

/-- Python 2 sequence repetition `n * s` (non-positive `n` gives `""`). -/
def strRepeat (n : Int) (s : String) : String :=
  String.join (List.replicate n.toNat s)

/-- Python 2 `*` on the value shapes reachable here. -/
def pyMul : PyVal → PyVal → Option PyVal
  | .int a, .int b => some (.int (a * b))
  | .int a, .str s => some (.str (strRepeat a s))
  | .str s, .int a => some (.str (strRepeat a s))
  | .str _, .str _ => none

/-- Python 2 `-`: defined on numbers, `TypeError` (`none`) on a string. -/
def pySub : PyVal → PyVal → Option PyVal
  | .int a, .int b => some (.int (a - b))
  | _, _ => none

/-- Python `s.split('.')` at character level (total, keeps empty groups). -/
def splitDot : List Char → List (List Char)
  | [] => [[]]
  | c :: cs =>
    let rest := splitDot cs
    if c = '.' then [] :: rest
    else
      match rest with
      | [] => [[c]]
      | g :: gs => (c :: g) :: gs

/-- Python `int(digit-string)` for an optionally `-`-signed digit run;
`none` models the `ValueError` on anything else. -/
def pyIntOfChars (cs : List Char) : Option Int :=
  let digits : List Char → Option Nat
    | [] => none
    | ds => ds.foldl
        (fun acc c =>
          match acc with
          | none => none
          | some n => if c.isDigit then some (n * 10 + (c.toNat - '0'.toNat)) else none)
        (some 0)
  match cs with
  | '-' :: rest => (digits rest).map fun n => -(n : Int)
  | _ => (digits cs).map fun n => (n : Int)

/-- `int(name.split('.')[1])`: `none` models the `IndexError` (no dot) or
`ValueError` (non-numeric suffix) that the expression would raise. -/
def binlogFileNr (name : String) : Option Int :=
  match (splitDot name.toList).get? 1 with
  | none => none
  | some suffix => pyIntOfChars suffix

/-! ### `_set_state` (the severity ratchet) -/

/-- `_set_state`: `if state >= self._state: self._state = state`.
First argument is the current `self._state`, second the recorded state. -/
def setStateVal (cur state : Nat) : Nat :=
  if state ≥ cur then state else cur

/-! ### `_diff_binlog_master_slave`, primary branch -/

/-- One row of `SHOW MASTER LOGS` (`Log_name`, `File_size`). -/
structure MasterLog where
  log_name : String
  file_size : Int
deriving DecidableEq, Repr

/-- The primary-branch `for log in self._master._master_logs()` loop:
`slave_logfile_matched` latches at the first row whose `Log_name` equals the
replica's `Relay_Master_Log_File`, and from then on `File_size` is added to
`master_log_ahead` (the accumulator). -/
def masterLogAhead : List MasterLog → String → Bool → Int → Int
  | [], _, _, acc => acc
  | l :: ls, relayFile, matched, acc =>
    if l.log_name = relayFile ∨ matched = true then
      masterLogAhead ls relayFile true (acc + l.file_size)
    else
      masterLogAhead ls relayFile matched acc

/-- Primary algorithm of `_diff_binlog_master_slave` (master reachable):
accumulate file sizes from the matched relay log file onward, then subtract
`Exec_Master_Log_Pos`. -/
def diffBinlogPrimary (logs : List MasterLog) (relayFile : String)
    (execPos : Int) : Int :=
  masterLogAhead logs relayFile false 0 - execPos

/-- Written from the SPEC's words, for comparison with `diffBinlogPrimary`:
"scan the list, accumulating file sizes starting from the file the replica's
relay thread has marked as its current source log file, inclusive of that file
and all later files; subtract the replica's last-executed source log position
from this running total." -/
def specLagFromRelay (logs : List MasterLog) (relayFile : String)
    (execPos : Int) : Int :=
  (((logs.dropWhile fun l => decide (l.log_name ≠ relayFile)).map
      MasterLog.file_size).sum) - execPos

/-! ### `_diff_binlog_master_slave`, fallback branch (`slave_status_only`) -/

/-- Fallback branch of `_diff_binlog_master_slave`, with Python 2 dynamic
typing made explicit in `max_binlog_size` (the raw
`self._mysql['variables'].get('max_binlog_size')` value).  `none` models an
uncaught exception escaping the branch. -/
def diffBinlogFallback (max_binlog_size : PyVal)
    (masterLogFile relayMasterLogFile : String) (execPos : Int) :
    Option PyVal := do
  let masterNr ← binlogFileNr masterLogFile
  let slaveNr ← binlogFileNr relayMasterLogFile
  let offset := masterNr - slaveNr
  if offset > 0 then
    let prod ← pyMul (.int offset) max_binlog_size
    pySub prod (.int execPos)
  else
    pure (.int 0)

/-! ### Aggregator state

`self._state`, `self._messages` (three ordered buckets) and `self._perf_data`.
Messages and perf-data entries are kept as structured terms: each constructor
is one format string of the script together with its arguments, so term
equality is byte equality of the rendered strings. -/

/-- One message of `self._messages`; constructors follow the script's format
strings with their arguments. -/
inductive Msg where
  /-- "Thread usage {}% Threads running {} Thread concurrency {} " -/
  | threadUsage (usage running concurrency : ℚ)
  /-- "Connections used {}% Threads connected {} Max connections {}" -/
  | connectionsUsed (usage connected maxConnections : ℚ)
  /-- "Replication SQL Thread is down" -/
  | sqlThreadDown
  /-- "Last Error: {}" -/
  | lastError (errno : Int)
  /-- "Replication IO Thread is down" -/
  | ioThreadDown
  /-- "Slave is not operating in read only mode" -/
  | notReadOnly
  /-- "Replication Master {}:{} Slave lag {}/{}" (lag seconds/bytes kept raw;
  `pretty_time`/`pretty_size` are injective renderings applied at format time) -/
  | replSummary (masterHost : String) (masterPort : Int) (lagSeconds lagBytes : Int)
  /-- "Slave connected {}" -/
  | slaveConnected (n : Nat)
  /-- "User {} has {} connections (w:{} c:{})" -/
  | userConn (username : Option String) (count warning critical : Int)
  /-- "Liquibase lock table {} not found" -/
  | lockTableNotFound (table : String)
  /-- "Liquibase lock held by {} in {} for {} seconds" -/
  | lockHeld (lockedBy database : String) (seconds : Int)
  /-- "Liquibase locks" -/
  | liquibaseOk
  /-- "Heartbeat" -/
  | heartbeatOk
  /-- "Heartbeat failed to update unix timestamp ({})" -/
  | heartbeatFailed (e : String)
  /-- "Definer for {}" -/
  | definerOk (targets : List String)
  /-- "Definer [{}] in {} is broken" -/
  | definerBroken (target : String) (broken : List (String × List String))
deriving DecidableEq, Repr

/-- One entry of `self._perf_data`; constructors follow the script's
`label=value;warning;critical` format strings. -/
inductive Perf where
  /-- "thread_usage={}%;{};{}" -/
  | threadUsage (usage warning critical : ℚ)
  /-- "connection_usage={}%;{};{}" -/
  | connectionUsage (usage warning critical : ℚ)
  /-- "replication_lag_bytes={}b;{};{}" -/
  | replLagBytes (lagBytes warning critical : Int)
  /-- "replication_lag_seconds={}s;{};{}" -/
  | replLagSeconds (lagSeconds warning critical : Int)
  /-- "slaves_connected={};{};{}" -/
  | slavesConnected (n : Nat) (warning critical : Int)
  /-- "user_connected={};{};{}" -/
  | userConnected (count warning critical : Int)
deriving DecidableEq, Repr

/-- The mutable fields of `MySQLServer` that the checks touch:
`self._state`, `self._messages['ok'|'warning'|'critical']`, `self._perf_data`. -/
structure AggState where
  state : Nat
  ok : List Msg
  warning : List Msg
  critical : List Msg
  perf : List Perf
deriving DecidableEq, Repr

/-- State of a freshly constructed `MySQLServer`. -/
def initState : AggState :=
  { state := 0, ok := [], warning := [], critical := [], perf := [] }

/-- `self._set_state(state)` acting on the record. -/
def setState (s : Nat) (st : AggState) : AggState :=
  { st with state := setStateVal st.state s }

/-- Python 2 `round(x, 2)` (round half away from zero; all values rounded by
the script are non-negative, where this is `floor(x*100 + 1/2)/100`). -/
def pyRound2 (q : ℚ) : ℚ :=
  ((⌊q * 100 + 1/2⌋ : ℤ) : ℚ) / 100

/-! ### The check suite -/

/-- `check_threads_usage(warning, critical)`.  `threadsRunning` is
`float(status.get('Threads_running', 0))`, `threadConcurrency` is
`float(variables.get('innodb_thread_concurrency'))`. -/
def check_threads_usage (threadsRunning threadConcurrency : ℚ)
    (warning critical : ℚ) (st : AggState) : AggState :=
  if threadConcurrency = 0 then st
  else
    let thread_usage := pyRound2 (threadsRunning / threadConcurrency * 100)
    let st := { st with perf := st.perf ++ [Perf.threadUsage thread_usage warning critical] }
    let msg := Msg.threadUsage thread_usage threadsRunning threadConcurrency
    if thread_usage ≥ critical then
      setState 2 { st with critical := st.critical ++ [msg] }
    else if thread_usage ≥ warning then
      setState 1 { st with warning := st.warning ++ [msg] }
    else
      { st with ok := st.ok ++ [msg] }

/-- `check_connections(warning, critical)`; `.error` models the
`ZeroDivisionError` Python raises when `max_connections` is 0. -/
def check_connections (threadsConnected maxConnections : ℚ)
    (warning critical : ℚ) (st : AggState) : Except String AggState :=
  if maxConnections = 0 then .error "ZeroDivisionError"
  else
    let connection_usage := pyRound2 (threadsConnected / maxConnections * 100)
    let st := { st with perf := st.perf ++ [Perf.connectionUsage connection_usage warning critical] }
    let msg := Msg.connectionsUsed connection_usage threadsConnected maxConnections
    if connection_usage ≥ critical then
      .ok (setState 2 { st with critical := st.critical ++ [msg] })
    else if connection_usage ≥ warning then
      .ok (setState 1 { st with warning := st.warning ++ [msg] })
    else
      .ok { st with ok := st.ok ++ [msg] }

/-- `check_slave_connections(warning, critical)`; `slavesQ` is the result of
the `SHOW SLAVE HOSTS` query (`.error` = the cursor raising). -/
def check_slave_connections (warning critical : Int)
    (slavesQ : Except String Nat) (st : AggState) : Except String AggState :=
  if warning = -1 ∨ critical = -1 then .ok st
  else do
    let slaves ← slavesQ
    let st := { st with perf := st.perf ++ [Perf.slavesConnected slaves warning critical] }
    let msg := Msg.slaveConnected slaves
    if (slaves : Int) ≤ critical then
      .ok (setState 2 { st with critical := st.critical ++ [msg] })
    else if (slaves : Int) ≤ warning then
      .ok (setState 1 { st with warning := st.warning ++ [msg] })
    else
      .ok { st with ok := st.ok ++ [msg] }

/-- `check_user_connections(username, alert_level, warning, critical)`;
`countQ` is the result of the `information_schema.processlist` count query. -/
def check_user_connections (username : Option String) (alert_level : String)
    (warning critical : Int) (countQ : Except String Int) (st : AggState) :
    Except String AggState := do
  let count ← countQ
  let st := { st with perf := st.perf ++ [Perf.userConnected count warning critical] }
  let msg := Msg.userConn username count warning critical
  if count ≤ critical ∧ alert_level = "critical" then
    .ok (setState 2 { st with critical := st.critical ++ [msg] })
  else if count ≤ warning then
    .ok (setState 1 { st with warning := st.warning ++ [msg] })
  else
    .ok { st with ok := st.ok ++ [msg] }

/-! ### Replication -/

/-- The `SHOW SLAVE STATUS` fields the script reads (`self._mysql['slave']`). -/
structure SlaveStatus where
  relay_master_log_file : String
  master_log_file : String
  exec_master_log_pos : Int
  /-- `none` models SQL `NULL` (Python `None`). -/
  seconds_behind_master : Option Int
  slave_sql_running : String
  slave_io_running : String
  last_errno : Int
  master_host : String
  master_port : Int
deriving DecidableEq, Repr

/-- `_get_replication_lag`: `_connect_master` swallows every connection
failure (`except Exception: pass`), leaving `self._master` unset, which
silently selects the `slave_status_only` fallback.  `masterAvailable` is
whether the master connection succeeded; `master_logs` the result of
`SHOW MASTER LOGS` on the master.  The `some (.str _)` arm is unreachable
(`pySub` only produces ints) and the `none` arm is the uncaught `TypeError`
propagating. -/
def get_replication_lag (masterAvailable : Bool)
    (master_logs : Except String (List MasterLog)) (max_binlog_size : PyVal)
    (slave : SlaveStatus) : Except String Int :=
  if masterAvailable then do
    let logs ← master_logs
    .ok (diffBinlogPrimary logs slave.relay_master_log_file slave.exec_master_log_pos)
  else
    match diffBinlogFallback max_binlog_size slave.master_log_file
        slave.relay_master_log_file slave.exec_master_log_pos with
    | some (.int n) => .ok n
    | some (.str _) => .error "TypeError"
    | none => .error "TypeError"

/-- `lag_seconds` after the `if lag_seconds is None: lag_seconds = -1`
normalization. -/
def lagSecondsOf (seconds_behind_master : Option Int) : Int :=
  match seconds_behind_master with
  | none => -1
  | some v => v

/-- The two thread-status blocks of `check_replication`
(`if slave_sql_thread != 'Yes'`, `if slave_io_thread != 'Yes'`). -/
def replThreadMsgs (sl : SlaveStatus) (st : AggState) : AggState :=
  let st :=
    if sl.slave_sql_running ≠ "Yes" then
      let st := setState 2 { st with critical := st.critical ++ [Msg.sqlThreadDown] }
      if sl.last_errno ≠ 0 then
        { st with critical := st.critical ++ [Msg.lastError sl.last_errno] }
      else st
    else st
  if sl.slave_io_running ≠ "Yes" then
    setState 2 { st with critical := st.critical ++ [Msg.ioThreadDown] }
  else st

/-- The `if not ignore_readonly_warning and read_only != 'ON'` block. -/
def replReadOnlyMsg (ignore_readonly_warning : Bool) (read_only : String)
    (st : AggState) : AggState :=
  if ¬ignore_readonly_warning ∧ read_only ≠ "ON" then
    setState 1 { st with warning := st.warning ++ [Msg.notReadOnly] }
  else st

/-- The byte-lag threshold cascade (`if lag_bytes >= ... elif ... else pass`). -/
def replBytesCascade (lag_bytes warning critical : Int) (msg : Msg)
    (st : AggState) : AggState :=
  if lag_bytes ≥ critical then
    setState 2 { st with critical := st.critical ++ [msg] }
  else if lag_bytes ≥ warning then
    setState 1 { st with warning := st.warning ++ [msg] }
  else st

/-- The seconds-lag threshold cascade
(`if lag_seconds >= ... elif ... else ok-append`). -/
def replSecondsCascade (lag_seconds warning critical : Int) (msg : Msg)
    (st : AggState) : AggState :=
  if lag_seconds ≥ critical then
    setState 2 { st with critical := st.critical ++ [msg] }
  else if lag_seconds ≥ warning then
    setState 1 { st with warning := st.warning ++ [msg] }
  else
    { st with ok := st.ok ++ [msg] }

/-- `check_replication(...)`.  `slave = none` models `self._is_slave` being
false (the whole body is skipped); `read_only` is
`variables.get('read_only')`. -/
def check_replication (threshold_seconds_warning threshold_seconds_critical
    threshold_bytes_warning threshold_bytes_critical : Int)
    (ignore_readonly_warning : Bool) (read_only : String)
    (slave : Option SlaveStatus) (masterAvailable : Bool)
    (master_logs : Except String (List MasterLog)) (max_binlog_size : PyVal)
    (st : AggState) : Except String AggState :=
  match slave with
  | none => .ok st
  | some sl => do
    let lag_bytes ← get_replication_lag masterAvailable master_logs max_binlog_size sl
    let st := { st with perf := st.perf ++
        [Perf.replLagBytes lag_bytes threshold_bytes_warning threshold_bytes_critical] }
    let lag_seconds := lagSecondsOf sl.seconds_behind_master
    let st := { st with perf := st.perf ++
        [Perf.replLagSeconds lag_seconds threshold_seconds_warning threshold_seconds_critical] }
    let st := replThreadMsgs sl st
    let st := replReadOnlyMsg ignore_readonly_warning read_only st
    let msg := Msg.replSummary sl.master_host sl.master_port lag_seconds lag_bytes
    let st := replBytesCascade lag_bytes threshold_bytes_warning
      threshold_bytes_critical msg st
    let st := replSecondsCascade lag_seconds threshold_seconds_warning
      threshold_seconds_critical msg st
    .ok st

/-! ### Heartbeat, Liquibase, Definer -/

/-- `check_heartbeat(table, column)`.  `writeQ` is the
`DELETE`/`INSERT`/`commit` sequence: `.error e` carries the error text
(`e[1]`).  The body runs only when the server is not read-only; note the
source rebinds `msg` on failure, so the failure text is then appended to BOTH
the critical and the ok bucket, and `_set_state(state_ok)` afterwards is a
no-op of the ratchet. -/
def check_heartbeat (read_only : String) (writeQ : Except String Unit)
    (st : AggState) : AggState :=
  if read_only ≠ "ON" then
    match writeQ with
    | .ok _ =>
        setState 0 { st with ok := st.ok ++ [Msg.heartbeatOk] }
    | .error e =>
        let st := setState 2 { st with critical := st.critical ++ [Msg.heartbeatFailed e] }
        setState 0 { st with ok := st.ok ++ [Msg.heartbeatFailed e] }
  else st

/-- One row of the per-table Liquibase lock query
(`LOCKEDBY`, computed `SECONDS`; `LOCKGRANTED` is only used in the filter). -/
structure LiquiLock where
  lockedBy : String
  seconds : Int
deriving DecidableEq, Repr

/-- The `for lock in lock_tables` query loop of `check_liquibase`: one
`fetchone` per (schema, table) row, keeping non-empty results paired with
their schema (the `DATABASE` key added to the row dict). -/
def gatherLocks (lockRowQ : String → String → Except String (Option LiquiLock)) :
    List (String × String) → Except String (List (LiquiLock × String))
  | [] => .ok []
  | (schema, name) :: rest => do
    let r ← lockRowQ schema name
    let more ← gatherLocks lockRowQ rest
    match r with
    | some lock => .ok ((lock, schema) :: more)
    | none => .ok more

/-- `check_liquibase(database, table, warning, critical)`.  `lockTablesQ` is
the `information_schema.TABLES` scan (rows as (TABLE_SCHEMA, TABLE_NAME));
`lockRowQ schema name` the per-table lock row.  Note the threshold loop uses
two independent `if`s, and the final ok message depends on the accumulated
`self._state`. -/
def check_liquibase (table : String) (warning critical : Int)
    (lockTablesQ : Except String (List (String × String)))
    (lockRowQ : String → String → Except String (Option LiquiLock))
    (st : AggState) : Except String AggState := do
  let lock_tables ← lockTablesQ
  let (locks, st) ←
    if lock_tables ≠ [] then do
      let locks ← gatherLocks lockRowQ lock_tables
      pure (locks, st)
    else
      pure (([] : List (LiquiLock × String)),
        setState 1 { st with warning := st.warning ++ [Msg.lockTableNotFound table] })
  let st := locks.foldl
    (fun st lock =>
      let st :=
        if lock.1.seconds ≥ critical then
          setState 2 { st with critical := st.critical ++
            [Msg.lockHeld lock.1.lockedBy lock.2 lock.1.seconds] }
        else st
      if lock.1.seconds ≥ warning then
        setState 1 { st with warning := st.warning ++
          [Msg.lockHeld lock.1.lockedBy lock.2 lock.1.seconds] }
      else st)
    st
  if st.state = 0 then
    .ok { st with ok := st.ok ++ [Msg.liquibaseOk] }
  else
    .ok st

/-- Python-dict-of-lists update used by `check_definer`'s `users` and
`add_broken` helpers (insertion order preserved, appends to an existing
key's list). -/
def addToDict (d : List (String × List String)) (k v : String) :
    List (String × List String) :=
  if d.any (fun p => p.1 = k) then
    d.map fun p => if p.1 = k then (p.1, p.2 ++ [v]) else p
  else
    d ++ [(k, [v])]

/-- Lookup in the dict-of-lists. -/
def dictLists (d : List (String × List String)) (k : String) :
    Option (List String) :=
  match d with
  | [] => none
  | (k2, v) :: rest => if k2 = k then some v else dictLists rest k

/-- The `users` dict built from `SELECT User,Host FROM mysql.user` rows. -/
def buildUsers (rows : List (String × String)) : List (String × List String) :=
  rows.foldl (fun d r => addToDict d r.1 r.2) []

/-- The per-target `broken` accumulation of `check_definer`: a definer
(user, host) is broken when the user is unknown or the host is not among the
user's hosts. -/
def brokenFor (users : List (String × List String))
    (rows : List (String × String)) : List (String × List String) :=
  rows.foldl
    (fun b r =>
      match dictLists users r.1 with
      | some hosts => if r.2 ∉ hosts then addToDict b r.1 r.2 else b
      | none => addToDict b r.1 r.2)
    []

/-- `check_definer(targets)`.  `usersQ` is the `mysql.user` query, `definerQ`
the per-target `DEFINER` grouping query. -/
def check_definer (targets : List String)
    (usersQ : Except String (List (String × String)))
    (definerQ : String → Except String (List (String × String)))
    (st : AggState) : Except String AggState := do
  let userRows ← usersQ
  let users := buildUsers userRows
  let brokenList ← targets.mapM fun t => do
    let rows ← definerQ t
    pure (t, brokenFor users rows)
  let st := { st with ok := st.ok ++ [Msg.definerOk targets] }
  let st := brokenList.foldl
    (fun st tb =>
      if tb.2.length > 0 then
        setState 1 { st with warning := st.warning ++ [Msg.definerBroken tb.1 tb.2] }
      else st)
    st
  .ok st

/-! ### `_print_status` (the report formatter) -/

/-- One printed line.  `okHead` is the fixed "Ok Database Health" line,
`levelHead` the "{Level} Database Health - {msg}" line, `msgLine` a
"{Level} - {msg}" line and `perfLine` the trailing "|{perf...}" line. -/
inductive Line where
  | okHead
  | levelHead (levelCap : String) (m : Msg)
  | msgLine (levelCap : String) (m : Msg)
  | perfLine (ps : List Perf)
deriving DecidableEq, Repr

/-- `self._messages[level]` (`none` = `KeyError`). -/
def bucketOf (st : AggState) (level : String) : Option (List Msg) :=
  if level = "ok" then some st.ok
  else if level = "warning" then some st.warning
  else if level = "critical" then some st.critical
  else none

/-- Write back a bucket (the effect of `pop(0)` on the stored list). -/
def setBucket (st : AggState) (level : String) (ms : List Msg) : AggState :=
  if level = "ok" then { st with ok := ms }
  else if level = "warning" then { st with warning := ms }
  else if level = "critical" then { st with critical := ms }
  else st

/-- `_print_status(level)`: returns the printed lines and the aggregator
state afterwards.  For a non-ok level the source does
`self._messages[level].pop(0)` — a state MUTATION — and `none` models the
`IndexError` that `pop(0)` raises on an empty bucket. -/
def print_status (level : String) (st : AggState) :
    Option (List Line × AggState) :=
  if level = "ok" then
    some ((Line.okHead :: st.ok.map (Line.msgLine "Ok")) ++ [Line.perfLine st.perf], st)
  else
    match bucketOf st level with
    | none => none
    | some [] => none
    | some (first :: rest) =>
      some ((Line.levelHead level.capitalize first ::
        rest.map (Line.msgLine level.capitalize)) ++ [Line.perfLine st.perf],
        setBucket st level rest)

/-! ### `status(check)` (the dispatcher) -/

/-- The `check` dict handed to `status` (`parse_check_args` output), with the
per-check snapshot inputs and query oracles the checks consume.  `.error`
in an oracle models the corresponding cursor call raising. -/
structure CheckCfg where
  check_heartbeat : Bool
  check_replication : Bool
  replication_lag_seconds_warning : Int
  replication_lag_seconds_critical : Int
  replication_lag_bytes_warning : Int
  replication_lag_bytes_critical : Int
  replication_ignore_readonly_warning : Bool
  check_threads : Bool
  threads_warning : ℚ
  threads_critical : ℚ
  check_user_connections : Bool
  user_connections_filter : Option String
  user_connections_max_alertlevel : String
  user_connections_warning : Int
  user_connections_critical : Int
  check_connections : Bool
  connections_warning : ℚ
  connections_critical : ℚ
  check_slave_connections : Bool
  slave_connections_warning : Int
  slave_connections_critical : Int
  check_liquibase : Bool
  liquibase_changeloglock_table : String
  liquibase_lock_seconds_warning : Int
  liquibase_lock_seconds_critical : Int
  check_definer : Bool
  definer_targets : List String
deriving Repr

/-- The snapshot (`self._mysql`) fields consumed by the checks. -/
structure Server where
  read_only : String
  threads_running : ℚ
  innodb_thread_concurrency : ℚ
  threads_connected : ℚ
  max_connections : ℚ
  max_binlog_size : PyVal
  slave : Option SlaveStatus
deriving Repr

/-- The ad-hoc query results (the database as the checks observe it). -/
structure Db where
  masterAvailable : Bool
  master_logs : Except String (List MasterLog)
  heartbeatWrite : Except String Unit
  userConnCount : Except String Int
  slaveHostsCount : Except String Nat
  lockTablesQ : Except String (List (String × String))
  lockRowQ : String → String → Except String (Option LiquiLock)
  usersQ : Except String (List (String × String))
  definerQ : String → Except String (List (String × String))

/-- The check-running part of `status(check)`: each enabled check in the
source's fixed order.  An `.error` is an exception propagating out of
`status` (nothing in `status` or `main` catches it). -/
def runChecks (cfg : CheckCfg) (srv : Server) (db : Db) (st : AggState) :
    Except String AggState := do
  let st := if cfg.check_heartbeat then
      check_heartbeat srv.read_only db.heartbeatWrite st
    else st
  let st ← if cfg.check_replication then
      check_replication cfg.replication_lag_seconds_warning
        cfg.replication_lag_seconds_critical cfg.replication_lag_bytes_warning
        cfg.replication_lag_bytes_critical cfg.replication_ignore_readonly_warning
        srv.read_only srv.slave db.masterAvailable db.master_logs
        srv.max_binlog_size st
    else pure st
  let st := if cfg.check_threads then
      check_threads_usage srv.threads_running srv.innodb_thread_concurrency
        cfg.threads_warning cfg.threads_critical st
    else st
  let st ← if cfg.check_user_connections then
      check_user_connections cfg.user_connections_filter
        cfg.user_connections_max_alertlevel cfg.user_connections_warning
        cfg.user_connections_critical db.userConnCount st
    else pure st
  let st ← if cfg.check_connections then
      check_connections srv.threads_connected srv.max_connections
        cfg.connections_warning cfg.connections_critical st
    else pure st
  let st ← if cfg.check_slave_connections then
      check_slave_connections cfg.slave_connections_warning
        cfg.slave_connections_critical db.slaveHostsCount st
    else pure st
  let st ← if cfg.check_liquibase then
      check_liquibase cfg.liquibase_changeloglock_table
        cfg.liquibase_lock_seconds_warning cfg.liquibase_lock_seconds_critical
        db.lockTablesQ db.lockRowQ st
    else pure st
  let st ← if cfg.check_definer then
      check_definer cfg.definer_targets db.usersQ db.definerQ st
    else pure st
  .ok st

/-- `status(check)`: run the checks, then print by the final state and
return `self._state` as the exit code.  `.error` is an exception escaping
`status` before anything is printed. -/
def statusRun (cfg : CheckCfg) (srv : Server) (db : Db) (st : AggState) :
    Except String (List Line × Nat) := do
  let st ← runChecks cfg srv db st
  let level := if st.state = 2 then "critical"
    else if st.state = 1 then "warning"
    else "ok"
  match print_status level st with
  | none => .error "IndexError"
  | some (lines, _) => .ok (lines, st.state)

/-! ### `main`'s connect-failure handler -/

def MYSQL_HOST_NOT_ALLOWED : Int := 1130
def MYSQL_UNKOWN_HOST : Int := 2005
def MYSQL_ACCESS_DENIED : Int := 1045
def MYSQL_REPLICATION_SLAVE_PRIV : Int := 1227

/-- The line printed by `main`'s `MySQLServerConnectException` handler. -/
inductive ExitLine where
  /-- "Warning - User is not allowed to connect" -/
  | warnNotAllowed
  /-- "Unknown - No service is listening on {host}:{port}" -/
  | unknownNoService (host : String) (port : Int)
  /-- "User has unsufficient privileges (REPLICATION SLAVE)" -/
  | insufficientPrivileges
  /-- "Critical - Database Connection failed" -/
  | criticalConnectFailed
deriving DecidableEq, Repr

/-- `main`'s `except MySQLServerConnectException` branch: maps the MySQL
error code to (exit code, printed lines).  It runs instead of
`server.status(...)`, so the report is never produced on this path. -/
def mainConnectFail (code : Int) (host : String) (port : Int) :
    Nat × List ExitLine :=
  if code = MYSQL_HOST_NOT_ALLOWED ∨ code = MYSQL_ACCESS_DENIED then
    (1, [ExitLine.warnNotAllowed])
  else if code = MYSQL_UNKOWN_HOST then
    (3, [ExitLine.unknownNoService host port])
  else if code = MYSQL_REPLICATION_SLAVE_PRIV then
    (1, [ExitLine.insufficientPrivileges])
  else
    (2, [ExitLine.criticalConnectFailed])

/-! ### `_connect_master` and the kwargs dict -/

/-- Python dict item read (`d[k]` / `d.get(k)`). -/
def dictGet (d : List (String × PyVal)) (k : String) : Option PyVal :=
  match d with
  | [] => none
  | (k2, v) :: rest => if k2 = k then some v else dictGet rest k

/-- Python dict item assignment `d[k] = v` (updates an existing key in place,
preserving insertion order, else appends the new key at the end). -/
def dictSet (d : List (String × PyVal)) (k : String) (v : PyVal) :
    List (String × PyVal) :=
  match d with
  | [] => [(k, v)]
  | (k2, w) :: rest => if k2 = k then (k2, v) :: rest else (k2, w) :: dictSet rest k v

/-- The slice of `MySQLServer` that `_connect_master` touches:
`self._kwargs` and the `Master_Host`/`Master_Port` slave-status fields. -/
structure Session where
  kwargs : List (String × PyVal)
  master_host : String
  master_port : Int
deriving DecidableEq, Repr

/-- `_connect_master`: `master_connection = self._kwargs` binds the SAME dict
object (the comment "Copy connection args" notwithstanding), so the two item
assignments land in the session's stored kwargs. -/
def connect_master (s : Session) : Session :=
  { s with
      kwargs := dictSet (dictSet s.kwargs "host" (.str s.master_host))
        "port" (.int s.master_port) }

/-! ### Concrete fixtures used by the counterexamples below -/

/-- A server snapshot: not read-only, not a replica, ordinary counters. -/
def srvFix : Server :=
  { read_only := "OFF", threads_running := 10, innodb_thread_concurrency := 20,
    threads_connected := 5, max_connections := 100,
    max_binlog_size := .str "1073741824", slave := none }

/-- The `parse_check_args` defaults with only the user-connection and
connection checks enabled (the user-connection check runs first in
`status`'s fixed order). -/
def cfgUserThenConn : CheckCfg :=
  { check_heartbeat := false, check_replication := false,
    replication_lag_seconds_warning := 600,
    replication_lag_seconds_critical := 1800,
    replication_lag_bytes_warning := 52428800,
    replication_lag_bytes_critical := 104857600,
    replication_ignore_readonly_warning := false,
    check_threads := false, threads_warning := 60, threads_critical := 95,
    check_user_connections := true, user_connections_filter := some "root",
    user_connections_max_alertlevel := "warning",
    user_connections_warning := 20, user_connections_critical := 5,
    check_connections := true, connections_warning := 85,
    connections_critical := 95,
    check_slave_connections := false, slave_connections_warning := -1,
    slave_connections_critical := 0,
    check_liquibase := false,
    liquibase_changeloglock_table := "DATABASECHANGELOGLOCK",
    liquibase_lock_seconds_warning := 900,
    liquibase_lock_seconds_critical := 3600,
    check_definer := false,
    definer_targets := ["views", "routines", "triggers", "events"] }

/-- Same defaults with the heartbeat and user-connection checks enabled. -/
def cfgHeartbeatThenUser : CheckCfg :=
  { cfgUserThenConn with check_heartbeat := true, check_connections := false }

/-- A database where every query succeeds except the user-connection count,
which raises with text `e`. -/
def dbUserConnFails (e : String) : Db :=
  { masterAvailable := false, master_logs := .ok [],
    heartbeatWrite := .ok (), userConnCount := .error e,
    slaveHostsCount := .ok 2, lockTablesQ := .ok [],
    lockRowQ := fun _ _ => .ok none, usersQ := .ok [],
    definerQ := fun _ => .ok [] }

/-- A database where only the heartbeat write fails (with text `e`) and the
user-connection count returns 30. -/
def dbHeartbeatFails (e : String) : Db :=
  { dbUserConnFails "" with heartbeatWrite := .error e, userConnCount := .ok 30 }

/-! ## Theorems -/

theorem setStateVal_eq_max (cur s : Nat) : setStateVal cur s = max cur s := by
  simp [setStateVal, Nat.max_def, ge_iff_le]

theorem foldl_setStateVal_eq_foldl_max (l : List Nat) :
    ∀ b, l.foldl setStateVal b = l.foldl max b := by
  induction l with
  | nil => intro b; rfl
  | cons x xs ih =>
    intro b
    rw [List.foldl_cons, List.foldl_cons, setStateVal_eq_max]
    exact ih _

theorem foldl_max_perm {l1 l2 : List Nat} (h : l1.Perm l2) :
    ∀ b, l1.foldl max b = l2.foldl max b := by
  induction h with
  | nil => intro b; rfl
  | cons x _ ih => intro b; simpa using ih (max b x)
  | swap x y l =>
    intro b
    rw [List.foldl_cons, List.foldl_cons, List.foldl_cons, List.foldl_cons,
      sup_right_comm]
  | trans _ _ ih1 ih2 => intro b; exact (ih1 b).trans (ih2 b)

/-- C1: severity ratchet.  Folding `_set_state` over any sequence of recorded
severities (from the initial `state_ok = 0`) yields exactly the maximum of the
recorded severities; the overall state is invariant under reordering of the
recordings; and `_set_state` never decreases the overall state. -/
theorem c1_severity_ratchet :
    (∀ severities : List Nat, severities.foldl setStateVal 0 = severities.foldl max 0) ∧
    (∀ s1 s2 : List Nat, s1.Perm s2 →
      s1.foldl setStateVal 0 = s2.foldl setStateVal 0) ∧
    (∀ cur s : Nat, cur ≤ setStateVal cur s) := by
  refine ⟨fun l => foldl_setStateVal_eq_foldl_max l 0, fun s1 s2 h => ?_, fun cur s => ?_⟩
  · rw [foldl_setStateVal_eq_foldl_max, foldl_setStateVal_eq_foldl_max]
    exact foldl_max_perm h 0
  · rw [setStateVal_eq_max]; exact le_max_left cur s

theorem c1_severity_ratchet_witness :
    ([2, 1, 0] : List Nat).Perm [0, 1, 2] ∧
      ([2, 1, 0] : List Nat).foldl setStateVal 0 = ([0, 1, 2] : List Nat).foldl setStateVal 0 :=
  ⟨by decide, c1_severity_ratchet.2.1 [2, 1, 0] [0, 1, 2] (by decide)⟩

theorem masterLogAhead_matched (logs : List MasterLog) (f : String) :
    ∀ acc, masterLogAhead logs f true acc = acc + (logs.map MasterLog.file_size).sum := by
  induction logs with
  | nil => intro acc; simp [masterLogAhead]
  | cons l ls ih =>
    intro acc
    simp only [masterLogAhead, or_true, if_pos, List.map_cons, List.sum_cons, ih]
    ring

theorem masterLogAhead_unmatched (logs : List MasterLog) (f : String) :
    ∀ acc, masterLogAhead logs f false acc =
      acc + ((logs.dropWhile fun l => decide (l.log_name ≠ f)).map MasterLog.file_size).sum := by
  induction logs with
  | nil => intro acc; simp [masterLogAhead]
  | cons l ls ih =>
    intro acc
    by_cases h : l.log_name = f
    · simp only [masterLogAhead, h, true_or, if_pos, List.dropWhile_cons,
        masterLogAhead_matched]
      simp [h]
      ring
    · simp only [masterLogAhead, List.dropWhile_cons]
      rw [if_neg (by simp [h]), ih]
      simp [h]

/-- C2: the primary replication-lag algorithm equals the spec's description —
the sum of the file sizes of all master binary-log files from the file named
by `Relay_Master_Log_File` (inclusive) through the end of the list, minus
`Exec_Master_Log_Pos` — and on the Scenario E fixture (relay-applied file
`mysql-bin.000009` of size 500000 fully executed at position 500000, followed
by `mysql-bin.000010` of size 1048576) the lag is 1048576 bytes. -/
theorem c2_primary_binlog_lag :
    (∀ (logs : List MasterLog) (relayFile : String) (execPos : Int),
      diffBinlogPrimary logs relayFile execPos = specLagFromRelay logs relayFile execPos) ∧
    diffBinlogPrimary
      [{ log_name := "mysql-bin.000009", file_size := 500000 },
       { log_name := "mysql-bin.000010", file_size := 1048576 }]
      "mysql-bin.000009" 500000 = 1048576 := by
  constructor
  · intro logs relayFile execPos
    simp [diffBinlogPrimary, specLagFromRelay, masterLogAhead_unmatched]
  · decide

/-- C3 (code bug): when the master connection cannot be opened the fallback IS
silently selected, but the fallback branch itself omits the numeric coercion
of `max_binlog_size` — `SHOW GLOBAL VARIABLES` values are strings, coerced
with `float(...)` everywhere else in the script — so whenever the file-number
difference is positive, Python 2 evaluates `int * str` as string repetition
and the following `str - int` raises an uncaught `TypeError` instead of
returning the estimate.  The conjuncts: (1) the lag computation aborts on the
failing input; (2) the fallback expression itself raises there; (3) with the
intended `int` coercion it would return the claimed
`(2 - 1) * 1073741824 - 500000 = 1073241824`; (4) a non-positive file-number
difference still returns 0 (that part of the claim holds as written). -/
theorem c3_fallback_lag_typeerror :
    get_replication_lag false (.ok []) (.str "1073741824")
      { relay_master_log_file := "mysql-bin.000001",
        master_log_file := "mysql-bin.000002",
        exec_master_log_pos := 500000,
        seconds_behind_master := some 0,
        slave_sql_running := "Yes", slave_io_running := "Yes",
        last_errno := 0, master_host := "m", master_port := 3306 } =
      .error "TypeError" ∧
    diffBinlogFallback (.str "1073741824") "mysql-bin.000002" "mysql-bin.000001" 500000 = none ∧
    diffBinlogFallback (.int 1073741824) "mysql-bin.000002" "mysql-bin.000001" 500000 =
      some (.int 1073241824) ∧
    diffBinlogFallback (.str "1073741824") "mysql-bin.000001" "mysql-bin.000001" 500000 =
      some (.int 0) :=
  ⟨rfl, by decide, by decide, by decide⟩

/-- C5 counterexample: the disabled sentinel `warning == critical == -1` does
NOT short-circuit every check.  `check_threads_usage` has no sentinel guard:
invoked with (-1, -1) on a snapshot with 10 running threads and concurrency
20 it computes usage 50%, appends a perf datum, appends a critical message
(50 ≥ -1) and raises the overall state to critical. -/
theorem c5_threads_sentinel_not_skipped :
    check_threads_usage 10 20 (-1) (-1) initState =
      { state := 2, ok := [], warning := [],
        critical := [Msg.threadUsage 50 10 20],
        perf := [Perf.threadUsage 50 (-1) (-1)] } := by
  norm_num [check_threads_usage, pyRound2, setState, setStateVal, initState,
    Int.floor_eq_iff]

/-- C5 amended: only `check_slave_connections` implements the disabled
sentinel, and it short-circuits (no message, no perf datum, no query, state
unchanged) whenever EITHER bound is -1 — in particular when both are. -/
theorem c5_slave_connections_sentinel :
    ∀ (warning critical : Int) (slavesQ : Except String Nat) (st : AggState),
      warning = -1 ∨ critical = -1 →
      check_slave_connections warning critical slavesQ st = .ok st := by
  intro w c q st h
  simp [check_slave_connections, h]

theorem c5_slave_connections_sentinel_witness :
    check_slave_connections (-1) (-1) (.ok 5) initState = .ok initState :=
  c5_slave_connections_sentinel (-1) (-1) (.ok 5) initState (Or.inl rfl)

/-- C7: critical escalation of `check_user_connections` is opt-in.  With
`alert_level ≠ 'critical'` the check never touches the critical bucket: it
records WARNING when `count <= warning` (regardless of the critical bound)
and OK otherwise.  With `alert_level = 'critical'` and `count <= critical` it
records CRITICAL.  Scenario D (count=3, warning=20, critical=5,
alert_level=warning) yields exactly one WARNING. -/
theorem c7_user_connections_alert_level :
    (∀ (st : AggState) (username : Option String) (al : String) (w k count : Int),
      al ≠ "critical" →
      check_user_connections username al w k (.ok count) st =
        .ok (if count ≤ w then
              setState 1 { st with
                perf := st.perf ++ [Perf.userConnected count w k],
                warning := st.warning ++ [Msg.userConn username count w k] }
            else
              { st with
                perf := st.perf ++ [Perf.userConnected count w k],
                ok := st.ok ++ [Msg.userConn username count w k] })) ∧
    (∀ (st : AggState) (username : Option String) (w k count : Int),
      count ≤ k →
      check_user_connections username "critical" w k (.ok count) st =
        .ok (setState 2 { st with
          perf := st.perf ++ [Perf.userConnected count w k],
          critical := st.critical ++ [Msg.userConn username count w k] })) ∧
    check_user_connections (some "root") "warning" 20 5 (.ok 3) initState =
      .ok { state := 1, ok := [],
            warning := [Msg.userConn (some "root") 3 20 5], critical := [],
            perf := [Perf.userConnected 3 20 5] } := by
  refine ⟨?_, ?_, by rfl⟩
  · intro st username al w k count h
    have hno : ¬(count ≤ k ∧ al = "critical") := fun hc => h hc.2
    simp only [check_user_connections, bind, Except.bind, hno, if_false]
    split <;> rfl
  · intro st username w k count h
    simp only [check_user_connections, bind, Except.bind]
    rw [if_pos ⟨h, by trivial⟩]

theorem c7_user_connections_alert_level_witness :
    check_user_connections none "warning" 20 5 (.ok 3) initState =
      .ok { state := 1, ok := [], warning := [Msg.userConn none 3 20 5],
            critical := [], perf := [Perf.userConnected 3 20 5] } ∧
    check_user_connections none "critical" 20 5 (.ok 3) initState =
      .ok { state := 2, ok := [], warning := [],
            critical := [Msg.userConn none 3 20 5],
            perf := [Perf.userConnected 3 20 5] } :=
  ⟨(c7_user_connections_alert_level.1 initState none "warning" 20 5 3
      (by decide)).trans (by rfl),
   (c7_user_connections_alert_level.2.1 initState none 20 5 3
      (by decide)).trans (by rfl)⟩

/-- C9: the connect-failure severity mapping of `main`.  Error codes 1045
(access denied), 1130 (host not allowed) and 1227 (missing REPLICATION SLAVE
privilege) exit WARNING (1); 2005 (unknown host) exits UNKNOWN (3); every
other code exits CRITICAL (2); and on every such path exactly one line is
printed — never the check report. -/
theorem c9_connect_failure_mapping :
    (∀ (code : Int) (host : String) (port : Int),
      code = 1045 ∨ code = 1130 ∨ code = 1227 →
      (mainConnectFail code host port).1 = 1) ∧
    (∀ (host : String) (port : Int), (mainConnectFail 2005 host port).1 = 3) ∧
    (∀ (code : Int) (host : String) (port : Int),
      code ≠ 1045 → code ≠ 1130 → code ≠ 1227 → code ≠ 2005 →
      (mainConnectFail code host port).1 = 2) ∧
    (∀ (code : Int) (host : String) (port : Int),
      (mainConnectFail code host port).2.length = 1) := by
  refine ⟨?_, fun host port => rfl, ?_, ?_⟩
  · intro code host port h
    rcases h with h | h | h <;>
      simp [mainConnectFail, h, MYSQL_HOST_NOT_ALLOWED, MYSQL_ACCESS_DENIED,
        MYSQL_UNKOWN_HOST, MYSQL_REPLICATION_SLAVE_PRIV]
  · intro code host port h1045 h1130 h1227 h2005
    simp [mainConnectFail, MYSQL_HOST_NOT_ALLOWED, MYSQL_ACCESS_DENIED,
      MYSQL_UNKOWN_HOST, MYSQL_REPLICATION_SLAVE_PRIV, h1045, h1130, h1227, h2005]
  · intro code host port
    simp only [mainConnectFail]
    split
    · rfl
    · split
      · rfl
      · split <;> rfl

theorem c9_connect_failure_mapping_witness :
    (mainConnectFail 1227 "db1" 3306).1 = 1 ∧
    (mainConnectFail 2005 "db1" 3306).1 = 3 ∧
    (mainConnectFail 1062 "db1" 3306).1 = 2 :=
  ⟨c9_connect_failure_mapping.1 1227 "db1" 3306 (Or.inr (Or.inr rfl)),
   c9_connect_failure_mapping.2.1 "db1" 3306,
   c9_connect_failure_mapping.2.2.1 1062 "db1" 3306 (by decide) (by decide)
     (by decide) (by decide)⟩

theorem dictGet_dictSet_same (d : List (String × PyVal)) (k : String) (v : PyVal) :
    dictGet (dictSet d k v) k = some v := by
  induction d with
  | nil => simp [dictSet, dictGet]
  | cons p rest ih =>
    by_cases h : p.1 = k
    · simp [dictSet, dictGet, h]
    · simp [dictSet, dictGet, h, ih]

theorem dictGet_dictSet_other (d : List (String × PyVal)) (k k2 : String)
    (v : PyVal) (h : k2 ≠ k) : dictGet (dictSet d k v) k2 = dictGet d k2 := by
  induction d with
  | nil => simp [dictSet, dictGet, Ne.symm h]
  | cons p rest ih =>
    by_cases hp : p.1 = k
    · simp [dictSet, dictGet, hp, Ne.symm h]
    · by_cases hq : p.1 = k2 <;> simp [dictSet, dictGet, hp, hq, h, ih]

/-- C10: `_connect_master` aliases `self._kwargs` instead of copying it
("master_connection = self._kwargs"), so computing the lag overwrites the
session's own stored 'host' and 'port' entries with the master's host/port;
every other entry stays, but the original mapping itself is mutated whenever
the stored host differs from the master host. -/
theorem c10_connect_master_mutates_kwargs (s : Session) :
    dictGet (connect_master s).kwargs "host" = some (.str s.master_host) ∧
    dictGet (connect_master s).kwargs "port" = some (.int s.master_port) ∧
    (∀ k, k ≠ "host" → k ≠ "port" →
      dictGet (connect_master s).kwargs k = dictGet s.kwargs k) ∧
    (dictGet s.kwargs "host" ≠ some (.str s.master_host) →
      (connect_master s).kwargs ≠ s.kwargs) := by
  refine ⟨?_, ?_, ?_, ?_⟩
  · rw [connect_master]
    rw [dictGet_dictSet_other _ _ _ _ (by decide), dictGet_dictSet_same]
  · rw [connect_master, dictGet_dictSet_same]
  · intro k hh hp
    rw [connect_master]
    rw [dictGet_dictSet_other _ _ _ _ hp, dictGet_dictSet_other _ _ _ _ hh]
  · intro hne heq
    apply hne
    have : dictGet (connect_master s).kwargs "host" = some (.str s.master_host) := by
      rw [connect_master]
      rw [dictGet_dictSet_other _ _ _ _ (by decide), dictGet_dictSet_same]
    rw [show (connect_master s).kwargs = s.kwargs from heq] at this
    exact this

theorem c10_connect_master_mutates_kwargs_witness :
    dictGet (connect_master
      { kwargs := [("host", .str "replica1"), ("port", .int 3306),
                   ("user", .str "monitor")],
        master_host := "primary1", master_port := 3307 }).kwargs "user" =
      some (.str "monitor") ∧
    (connect_master
      { kwargs := [("host", .str "replica1"), ("port", .int 3306),
                   ("user", .str "monitor")],
        master_host := "primary1", master_port := 3307 }).kwargs ≠
      [("host", .str "replica1"), ("port", .int 3306), ("user", .str "monitor")] :=
  ⟨(c10_connect_master_mutates_kwargs _).2.2.1 "user" (by decide) (by decide),
   (c10_connect_master_mutates_kwargs _).2.2.2 (by decide)⟩

/-- C4 counterexample: a failing query does NOT leave the run isolated.
`_run_query` catches nothing and neither does `status`, so with the
user-connection check enabled and its query raising, the exception propagates
out of `status`: the connection check that follows in the fixed order never
runs, no CRITICAL is recorded for the failing check, and no report is
printed (the run ends with the uncaught exception). -/
theorem c4_query_failure_aborts_run :
    statusRun cfgUserThenConn srvFix (dbUserConnFails "ProgrammingError") initState =
      .error "ProgrammingError" := rfl

/-- C4 amended: only the heartbeat check isolates its own query failure.
When the heartbeat write raises with text `e`, `check_heartbeat` records
CRITICAL with `e` embedded, the remaining enabled checks still run (here the
user-connection check still contributes its message and perf datum) and the
report is printed with exit state 2; whereas a query failure inside any other
check (here the user-connection count) propagates uncaught and terminates the
run before the report. -/
theorem c4_only_heartbeat_isolates :
    (∀ e : String,
      runChecks cfgHeartbeatThenUser srvFix (dbHeartbeatFails e) initState =
        .ok { state := 2,
              ok := [Msg.heartbeatFailed e, Msg.userConn (some "root") 30 20 5],
              warning := [], critical := [Msg.heartbeatFailed e],
              perf := [Perf.userConnected 30 20 5] } ∧
      statusRun cfgHeartbeatThenUser srvFix (dbHeartbeatFails e) initState =
        .ok ([Line.levelHead "Critical" (Msg.heartbeatFailed e),
              Line.perfLine [Perf.userConnected 30 20 5]], 2)) ∧
    (∀ e : String,
      statusRun cfgUserThenConn srvFix (dbUserConnFails e) initState = .error e) :=
  ⟨fun e => ⟨rfl, rfl⟩, fun e => rfl⟩

/-- C6 counterexample: `_print_status` is not idempotent and does not leave
the aggregator state unchanged: `self._messages[level].pop(0)` removes the
bucket's first message, so a second run on the same aggregator emits
different bytes (here: it has lost the first warning message) and the state
after the first run differs from the state before it. -/
theorem c6_formatter_mutates :
    print_status "warning"
      { state := 1, ok := [], warning := [Msg.sqlThreadDown, Msg.ioThreadDown],
        critical := [], perf := [] } =
      some ([Line.levelHead "Warning" Msg.sqlThreadDown,
             Line.msgLine "Warning" Msg.ioThreadDown, Line.perfLine []],
        { state := 1, ok := [], warning := [Msg.ioThreadDown],
          critical := [], perf := [] }) ∧
    print_status "warning"
      { state := 1, ok := [], warning := [Msg.ioThreadDown],
        critical := [], perf := [] } =
      some ([Line.levelHead "Warning" Msg.ioThreadDown, Line.perfLine []],
        { state := 1, ok := [], warning := [], critical := [], perf := [] }) ∧
    ([Line.levelHead "Warning" Msg.sqlThreadDown,
      Line.msgLine "Warning" Msg.ioThreadDown, Line.perfLine []] ≠
     [Line.levelHead "Warning" Msg.ioThreadDown, Line.perfLine []]) ∧
    ({ state := 1, ok := [], warning := [Msg.ioThreadDown], critical := [],
       perf := [] } : AggState) ≠
      { state := 1, ok := [], warning := [Msg.sqlThreadDown, Msg.ioThreadDown],
        critical := [], perf := [] } :=
  ⟨rfl, rfl, by decide, by decide⟩

/-- C6 amended: the formatter is idempotent exactly on the OK path — it
returns the aggregator unchanged (so a second run produces byte-identical
output) — while for a warning/critical level it removes the first message of
the printed bucket from the state. -/
theorem c6_formatter_ok_idempotent :
    (∀ st : AggState,
      print_status "ok" st =
        some ((Line.okHead :: st.ok.map (Line.msgLine "Ok")) ++
          [Line.perfLine st.perf], st)) ∧
    (∀ (state : Nat) (okl : List Msg) (m : Msg) (rest critl : List Msg)
        (perfd : List Perf),
      print_status "warning"
        { state := state, ok := okl, warning := m :: rest, critical := critl,
          perf := perfd } =
        some ((Line.levelHead "Warning" m :: rest.map (Line.msgLine "Warning")) ++
          [Line.perfLine perfd],
          { state := state, ok := okl, warning := rest, critical := critl,
            perf := perfd })) :=
  ⟨fun st => rfl, fun state okl m rest critl perfd => rfl⟩

/-- C8 counterexample: the replication summary line is appended to BOTH the
warning and the critical bucket in one invocation of `check_replication`:
with byte lag 250 breaching its critical bound (200) and seconds lag 50
breaching only its warning bound (10 ≤ 50 < 100), the byte cascade appends
the line to `critical` and the independent seconds cascade appends the same
line to `warning`. -/
theorem c8_summary_in_both_buckets :
    check_replication 10 100 100 200 false "ON"
      (some { relay_master_log_file := "f1", master_log_file := "f2",
              exec_master_log_pos := 500, seconds_behind_master := some 50,
              slave_sql_running := "Yes", slave_io_running := "Yes",
              last_errno := 0, master_host := "m", master_port := 3306 })
      true (.ok [{ log_name := "f1", file_size := 750 }]) (.str "1073741824")
      initState =
      .ok { state := 2, ok := [],
            warning := [Msg.replSummary "m" 3306 50 250],
            critical := [Msg.replSummary "m" 3306 50 250],
            perf := [Perf.replLagBytes 250 100 200,
                     Perf.replLagSeconds 50 10 100] } ∧
    Msg.replSummary "m" 3306 50 250 ∈ [Msg.replSummary "m" 3306 50 250] :=
  ⟨rfl, by decide⟩

theorem replThreadMsgs_critical (sl : SlaveStatus) (st : AggState) :
    (replThreadMsgs sl st).critical =
      st.critical ++
        (if sl.slave_sql_running ≠ "Yes" then
          Msg.sqlThreadDown ::
            (if sl.last_errno ≠ 0 then [Msg.lastError sl.last_errno] else [])
         else []) ++
        (if sl.slave_io_running ≠ "Yes" then [Msg.ioThreadDown] else []) := by
  unfold replThreadMsgs
  split_ifs <;> simp [setState]

theorem replThreadMsgs_warning (sl : SlaveStatus) (st : AggState) :
    (replThreadMsgs sl st).warning = st.warning := by
  unfold replThreadMsgs
  split_ifs <;> simp [setState]

theorem replReadOnlyMsg_critical (iro : Bool) (ro : String) (st : AggState) :
    (replReadOnlyMsg iro ro st).critical = st.critical := by
  unfold replReadOnlyMsg
  split_ifs <;> simp [setState]

theorem replReadOnlyMsg_warning (iro : Bool) (ro : String) (st : AggState) :
    (replReadOnlyMsg iro ro st).warning =
      st.warning ++ (if ¬iro ∧ ro ≠ "ON" then [Msg.notReadOnly] else []) := by
  unfold replReadOnlyMsg
  split_ifs <;> simp [setState]

theorem replBytesCascade_critical (lagB w c : Int) (msg : Msg) (st : AggState) :
    (replBytesCascade lagB w c msg st).critical =
      st.critical ++ (if lagB ≥ c then [msg] else []) := by
  unfold replBytesCascade
  split_ifs <;> simp [setState]

theorem replBytesCascade_warning (lagB w c : Int) (msg : Msg) (st : AggState) :
    (replBytesCascade lagB w c msg st).warning =
      st.warning ++ (if lagB < c ∧ lagB ≥ w then [msg] else []) := by
  unfold replBytesCascade
  split_ifs <;> simp_all [setState] <;> omega

theorem replSecondsCascade_critical (lagS w c : Int) (msg : Msg) (st : AggState) :
    (replSecondsCascade lagS w c msg st).critical =
      st.critical ++ (if lagS ≥ c then [msg] else []) := by
  unfold replSecondsCascade
  split_ifs <;> simp [setState]

theorem replSecondsCascade_warning (lagS w c : Int) (msg : Msg) (st : AggState) :
    (replSecondsCascade lagS w c msg st).warning =
      st.warning ++ (if lagS < c ∧ lagS ≥ w then [msg] else []) := by
  unfold replSecondsCascade
  split_ifs <;> simp_all [setState] <;> omega

/-- C8 amended: each of the two lag comparisons appends the summary line to
at most one bucket -- the byte cascade to `critical` when
`lag_bytes >= bytes_critical`, else to `warning` when
`lag_bytes >= bytes_warning`, else nowhere; the seconds cascade independently
to `critical`/`warning`/`ok` -- so the line can appear in both the warning
and the critical bucket of a single invocation exactly when the two measures
trigger different levels (and twice in one bucket when they trigger the same
level). -/
theorem c8_summary_per_cascade (sw sc bw bc : Int) (ignoreRO : Bool)
    (ro : String) (sl : SlaveStatus) (mAvail : Bool)
    (mlogs : Except String (List MasterLog)) (mbs : PyVal) (st : AggState)
    (lagB : Int) (h : get_replication_lag mAvail mlogs mbs sl = .ok lagB) :
    (check_replication sw sc bw bc ignoreRO ro (some sl) mAvail mlogs mbs
        st).map AggState.critical =
      .ok (st.critical ++
        (if sl.slave_sql_running ≠ "Yes" then
          Msg.sqlThreadDown ::
            (if sl.last_errno ≠ 0 then [Msg.lastError sl.last_errno] else [])
         else []) ++
        (if sl.slave_io_running ≠ "Yes" then [Msg.ioThreadDown] else []) ++
        (if lagB ≥ bc then
          [Msg.replSummary sl.master_host sl.master_port
            (lagSecondsOf sl.seconds_behind_master) lagB] else []) ++
        (if lagSecondsOf sl.seconds_behind_master ≥ sc then
          [Msg.replSummary sl.master_host sl.master_port
            (lagSecondsOf sl.seconds_behind_master) lagB] else [])) ∧
    (check_replication sw sc bw bc ignoreRO ro (some sl) mAvail mlogs mbs
        st).map AggState.warning =
      .ok (st.warning ++
        (if ¬ignoreRO ∧ ro ≠ "ON" then [Msg.notReadOnly] else []) ++
        (if lagB < bc ∧ lagB ≥ bw then
          [Msg.replSummary sl.master_host sl.master_port
            (lagSecondsOf sl.seconds_behind_master) lagB] else []) ++
        (if lagSecondsOf sl.seconds_behind_master < sc ∧
            lagSecondsOf sl.seconds_behind_master ≥ sw then
          [Msg.replSummary sl.master_host sl.master_port
            (lagSecondsOf sl.seconds_behind_master) lagB] else [])) := by
  constructor <;>
  · simp only [check_replication, bind, Except.bind, h, Except.map,
      Except.ok.injEq]
    simp only [replSecondsCascade_critical, replSecondsCascade_warning,
      replBytesCascade_critical, replBytesCascade_warning,
      replReadOnlyMsg_critical, replReadOnlyMsg_warning,
      replThreadMsgs_critical, replThreadMsgs_warning]

theorem c8_summary_per_cascade_witness :
    (check_replication 10 100 100 200 false "ON"
      (some { relay_master_log_file := "f2", master_log_file := "f3",
              exec_master_log_pos := 500, seconds_behind_master := some 50,
              slave_sql_running := "No", slave_io_running := "Yes",
              last_errno := 1062, master_host := "m2", master_port := 3307 })
      true (.ok [{ log_name := "f2", file_size := 750 }]) (.str "1073741824")
      initState).map AggState.critical =
      .ok [Msg.sqlThreadDown, Msg.lastError 1062,
           Msg.replSummary "m2" 3307 50 250] ∧
    (check_replication 10 100 100 200 false "ON"
      (some { relay_master_log_file := "f2", master_log_file := "f3",
              exec_master_log_pos := 500, seconds_behind_master := some 50,
              slave_sql_running := "No", slave_io_running := "Yes",
              last_errno := 1062, master_host := "m2", master_port := 3307 })
      true (.ok [{ log_name := "f2", file_size := 750 }]) (.str "1073741824")
      initState).map AggState.warning =
      .ok [Msg.replSummary "m2" 3307 50 250] :=
  ⟨((c8_summary_per_cascade 10 100 100 200 false "ON"
      { relay_master_log_file := "f2", master_log_file := "f3",
        exec_master_log_pos := 500, seconds_behind_master := some 50,
        slave_sql_running := "No", slave_io_running := "Yes",
        last_errno := 1062, master_host := "m2", master_port := 3307 }
      true (.ok [{ log_name := "f2", file_size := 750 }]) (.str "1073741824")
      initState 250 (by rfl)).1).trans (by rfl),
   ((c8_summary_per_cascade 10 100 100 200 false "ON"
      { relay_master_log_file := "f2", master_log_file := "f3",
        exec_master_log_pos := 500, seconds_behind_master := some 50,
        slave_sql_running := "No", slave_io_running := "Yes",
        last_errno := 1062, master_host := "m2", master_port := 3307 }
      true (.ok [{ log_name := "f2", file_size := 750 }]) (.str "1073741824")
      initState 250 (by rfl)).2).trans (by rfl)⟩

end CheckMySQLHealth
